import Mathlib

/-!
Verification of the client-side transport layer of the headlamp frontend:
the snapshot+watch reconciler (`streamResults` / `stream` in
`src/frontend/src/lib/k8s/apiProxy.ts`), the connection multiplexer
(`WebSocketManager` in `src/frontend/src/lib/k8s/api/v2/webSocket.ts`),
and the multi-endpoint failover router (`repeatStreamFunc` in
`apiProxy.ts`).  Each definition below is a shallow embedding of the
corresponding TypeScript function; effectful code is modelled by explicit
state passing, and the callback / wire side effects are returned as
explicit action lists.
-/

namespace Headlamp

/-! ### JavaScript string helpers

`truthy` models the JavaScript truthiness test on an optional string field
(`undefined`, `null` and the empty string are falsy).  `parseIntJS` models
`parseInt(s, 10)`: leading whitespace is skipped, an optional sign is
consumed, and the longest leading run of decimal digits is parsed; if no
digit is found the result is NaN, modelled here as `none`. -/

def truthy : Option String → Bool
  | some s => !(s == "")
  | none => false

def digitsAcc : List Char → Nat → Nat
  | c :: cs, acc => if c.isDigit then digitsAcc cs (acc * 10 + (c.toNat - 48)) else acc
  | [], acc => acc

def leadDigits : List Char → Option Nat
  | c :: cs => if c.isDigit then some (digitsAcc (c :: cs) 0) else none
  | [] => none

def isJsSpace (c : Char) : Bool :=
  c == ' ' || c == '\t' || c == '\n' || c == '\r'

def parseIntJS (s : String) : Option Int :=
  match s.data.dropWhile isJsSpace with
  | '-' :: rest => (leadDigits rest).map (fun n => -(n : Int))
  | '+' :: rest => (leadDigits rest).map (fun n => (n : Int))
  | rest => (leadDigits rest).map (fun n => (n : Int))

/-- JavaScript `<` between two `parseInt` results: any comparison with NaN
(`none`) is false. -/
def nanLt : Option Int → Option Int → Bool
  | some a, some b => decide (a < b)
  | _, _ => false

/-! ### Resource items and the reconciled collection

`KubeObject` carries exactly the fields the reconciler reads or writes:
the metadata `uid` and `resourceVersion`, the `kind`, and the `actionType`
tag the reconciler stamps onto each object.  The collection
`results : { [uid: string]: KubeObjectInterface }` is modelled as an
association list keyed by uid (JavaScript objects preserve insertion
order; an assignment to an existing key keeps its position, a new key is
appended, `delete` removes it). -/

structure ObjMeta where
  uid : String
  resourceVersion : Option String
  deriving DecidableEq, Repr

structure KubeObject where
  kind : String
  metadata : ObjMeta
  actionType : Option String
  deriving DecidableEq, Repr

abbrev Coll := List (String × KubeObject)

def getVal : Coll → String → Option KubeObject
  | [], _ => none
  | (k, v) :: rest, u => if k = u then some v else getVal rest u

def setVal : Coll → String → KubeObject → Coll
  | [], u, o => [(u, o)]
  | (k, v) :: rest, u, o => if k = u then (k, o) :: rest else (k, v) :: setVal rest u o

def eraseKey : Coll → String → Coll
  | [], _ => []
  | (k, v) :: rest, u => if k = u then rest else (k, v) :: eraseKey rest u

/-- `Object.values(results)`, the list handed to the caller by `push()`. -/
def values (c : Coll) : List KubeObject := c.map (fun p => p.2)

/-! ### The `update` event handler of `streamResults`

One call of `update({type, object})`: the object is stamped with
`actionType = type`, the switch on `type` mutates the collection
(`ADDED` overwrites by uid; `MODIFIED` applies the version check when the
uid already exists, inserting otherwise; `DELETED` removes by uid;
`ERROR` and unknown types only log), and `push()` runs unconditionally
after the switch, invoking the caller callback with `Object.values` of
the collection.  `pushed` records each callback invocation with its
argument; `errors` counts `console.error` calls. -/

structure UpdateResult where
  results : Coll
  pushed : List (List KubeObject)
  errors : Nat
  deriving Repr

def update (c : Coll) (ev_type : String) (ev_object : KubeObject) : UpdateResult :=
  let object : KubeObject := { ev_object with actionType := some ev_type }
  let step : Coll × Nat :=
    if ev_type = "ADDED" then
      (setVal c object.metadata.uid object, 0)
    else if ev_type = "MODIFIED" then
      match getVal c object.metadata.uid with
      | some existing =>
        if !truthy existing.metadata.resourceVersion
            || !truthy object.metadata.resourceVersion then
          (c, 1)
        else
          let currentVersion := parseIntJS (existing.metadata.resourceVersion.getD "")
          let newVersion := parseIntJS (object.metadata.resourceVersion.getD "")
          if nanLt currentVersion newVersion then
            (setVal c object.metadata.uid object, 0)
          else
            (c, 0)
      | none => (setVal c object.metadata.uid object, 0)
    else if ev_type = "DELETED" then
      (eraseKey c object.metadata.uid, 0)
    else if ev_type = "ERROR" then
      (c, 1)
    else
      (c, 1)
  { results := step.1, pushed := [values step.1], errors := step.2 }

/-- One `{type, object}` frame of the watch stream. -/
structure WatchEvent where
  type : String
  object : KubeObject
  deriving DecidableEq, Repr

/-- Folding a sequence of watch frames through `update`, keeping only the
collection. -/
def applyEvents (c : Coll) (evs : List WatchEvent) : Coll :=
  evs.foldl (fun acc e => (update acc e.type e.object).results) c

/-- The `parseInt` value of an object's resource version (`none` when the
marker is absent or does not parse). -/
def objVersion (o : KubeObject) : Option Int :=
  match o.metadata.resourceVersion with
  | some s => parseIntJS s
  | none => none

/-- The parsed version of the item stored under uid `u`. -/
def itemVersion (c : Coll) (u : String) : Option Int :=
  match getVal c u with
  | some o => objVersion o
  | none => none

/-! ### The snapshot path of `streamResults`

`run()` fetches `{kind, items, metadata}`, bails out if cancelled,
calls `add(items, kind)` — which stamps `kind.slice(0, -4)` onto every
item, indexes the items by uid, and pushes once — and then opens the
watch socket with the snapshot's `metadata.resourceVersion` as lower
bound.  The socket (`stream` + `connectStream`) is modelled by the
`isCancelled` flag of `stream`, whether a `setTimeout(connect, 3000)`
reconnect is pending, and the current connection with its `isClosing`
flag and whether the underlying socket has been closed.  Note that in
the source `cancel()` never clears a pending reconnect timer and
`connect()` performs no cancellation check, so a timer scheduled before
the cancel still fires and reconnects afterwards; the model keeps that
behaviour. -/

/-- JavaScript `s.slice(0, -4)`: drop the last four characters (empty
result when the string is shorter). -/
def jsSliceMinus4 (s : String) : String :=
  String.mk (s.data.take (s.data.length - 4))

/-- The loop body of `add(items, kind)`: each item's kind is overwritten
with the trimmed kind and the item is stored under its uid. -/
def addItems (c : Coll) (items : List KubeObject) (fixedKind : String) : Coll :=
  items.foldl (fun acc it => setVal acc it.metadata.uid { it with kind := fixedKind }) c

/-- State of one `connectStream` connection: its `isClosing` flag and
whether the physical socket is still open. -/
structure ConnState where
  isClosing : Bool
  socketAlive : Bool
  deriving DecidableEq, Repr

/-- State of one `stream(...)` call: its `isCancelled` flag, whether a
`setTimeout(connect, 3000)` reconnect is currently pending, and the
current connection. -/
structure StreamState where
  isCancelled : Bool
  pendingReconnect : Bool
  conn : Option ConnState
  deriving DecidableEq, Repr

/-- `stream`'s `cancel()`: `if (connection) connection.close();
isCancelled = true`.  `connection.close()` sets `isClosing` and closes
the socket.  A pending reconnect timer is not cleared — the source has
no `clearTimeout`. -/
def streamStateCancel (s : StreamState) : StreamState :=
  let s1 := match s.conn with
    | some c => { s with conn := some { c with isClosing := true, socketAlive := false } }
    | none => s
  { s1 with isCancelled := true }

/-- `stream`'s `onFail()` after an unexpected close:
`if (reconnectOnFailure) retryOnFail()`, where `retryOnFail()` is
`if (isCancelled) return; if (reconnectOnFailure)
setTimeout(connect, 3000)` — a reconnect timer is scheduled only while
the stream is not cancelled. -/
def streamOnFail (reconnectOnFailure : Bool) (s : StreamState) : StreamState :=
  if reconnectOnFailure then
    if s.isCancelled then s
    else if reconnectOnFailure then { s with pendingReconnect := true }
    else s
  else s

/-- A pending `setTimeout(connect, 3000)` firing: `connect()` runs with
no `isCancelled` check and installs a fresh connection whose `isClosing`
flag starts out false. -/
def streamTimerFire (s : StreamState) : StreamState :=
  if s.pendingReconnect then
    { isCancelled := s.isCancelled, pendingReconnect := false,
      conn := some { isClosing := false, socketAlive := true } }
  else s

/-- `connectStream`'s `onMessage`: delivers to the callback unless
`isClosing` is set. -/
def connOnMessageDelivers (c : ConnState) : Bool :=
  !c.isClosing

/-- A freshly connected stream, as produced by `stream(watchUrl, ...)`. -/
def freshStream : StreamState :=
  { isCancelled := false, pendingReconnect := false,
    conn := some { isClosing := false, socketAlive := true } }

/-- State of one `streamResults` call: its `isCancelled` flag, the watch
socket once opened, and the reconciled collection. -/
structure SRState where
  isCancelled : Bool
  socket : Option StreamState
  results : Coll
  deriving DecidableEq, Repr

/-- The state of `streamResults` right after it is invoked, before the
snapshot fetch resolves. -/
def srInit : SRState :=
  { isCancelled := false, socket := none, results := [] }

/-- `streamResults`' `cancel()`: a no-op when already cancelled, else it
sets the flag and cancels the socket if one exists. -/
def srCancel (s : SRState) : SRState :=
  if s.isCancelled then s
  else { s with isCancelled := true, socket := s.socket.map streamStateCancel }

/-- The observable actions of the snapshot path: callback pushes and the
opening of the watch stream. -/
inductive SRAction
  | push (vals : List KubeObject)
  | openWatch (resourceVersion : String)
  deriving DecidableEq, Repr

/-- The snapshot response destructured by `run()`. -/
structure Snapshot where
  kind : String
  items : List KubeObject
  resourceVersion : String
  deriving Repr

/-- The continuation of `run()` once the snapshot fetch resolves:
`if (isCancelled) return; add(items, kind); socket = stream(watchUrl,
update, ...)` where `watchUrl` carries `resourceVersion:
metadata.resourceVersion`. -/
def srOnSnapshot (s : SRState) (snap : Snapshot) : SRState × List SRAction :=
  if s.isCancelled then (s, [])
  else
    let c := addItems s.results snap.items (jsSliceMinus4 snap.kind)
    ({ s with results := c, socket := some freshStream },
     [SRAction.push (values c), SRAction.openWatch snap.resourceVersion])

/-! ### The connection multiplexer (`WebSocketManager`)

The manager's mutable fields are `socket`, `listeners` (a map from key to
a set of callbacks) and `completedPaths` (a set of keys).  JavaScript
`Map`s and `Set`s iterate in insertion order, so both are modelled as
duplicate-free lists with append-at-end insertion.  A callback is
identified by reference; `Cb` models a reference by a numeric id
together with its behaviour (whether invoking it throws).  The socket is
modelled as `Option Bool`: `none` for no socket, `some b` with `b` true
when the socket's `readyState` is `OPEN`. -/

structure Cb where
  id : Nat
  throws : Bool
  deriving DecidableEq, Repr

/-- An inbound frame, post `JSON.parse(event.data)`.  Optional fields
model absent properties; `dataMalformed` records whether the nested
`data` string would make `JSON.parse(data.data)` throw. -/
structure Frame where
  clusterId : Option String
  path : Option String
  query : Option String
  userId : Option String
  type : Option String
  data : Option String
  dataMalformed : Bool
  deriving DecidableEq, Repr

/-- An outbound control frame (`WebSocketMessage`). -/
structure WSMessage where
  clusterId : String
  path : String
  query : String
  userId : String
  type : String
  deriving DecidableEq, Repr

structure MuxState where
  socket : Option Bool
  listeners : List (String × List Cb)
  completedPaths : List String
  deriving DecidableEq, Repr

/-- `socket?.readyState === WebSocket.OPEN`. -/
def socketIsOpen : Option Bool → Bool
  | some b => b
  | none => false

/-- `createKey(clusterId, path, query)` in `WebSocketManager`. -/
def createKey (clusterId path query : String) : String :=
  clusterId ++ ":" ++ path ++ ":" ++ query

/-- `key.split(':')[0]`, the cluster id recovered in `handleUnsubscribe`. -/
def splitHead (s : String) : String :=
  String.mk (s.data.takeWhile (fun c => !(c == ':')))

def lookupCbs : List (String × List Cb) → String → Option (List Cb)
  | [], _ => none
  | (k, v) :: rest, key => if k = key then some v else lookupCbs rest key

def setCbs : List (String × List Cb) → String → List Cb → List (String × List Cb)
  | [], key, v => [(key, v)]
  | (k, w) :: rest, key, v => if k = key then (k, v) :: rest else (k, w) :: setCbs rest key v

def removeKey : List (String × List Cb) → String → List (String × List Cb)
  | [], _ => []
  | (k, w) :: rest, key => if k = key then rest else (k, w) :: removeKey rest key

/-- `Set.add`: append if not already a member. -/
def addCb (l : List Cb) (c : Cb) : List Cb :=
  if c ∈ l then l else l ++ [c]

/-- `Set.add` for the completed-path set. -/
def addPath (l : List String) (s : String) : List String :=
  if s ∈ l then l else l ++ [s]

/-- The result of one inbound message: the new manager state, the control
frames sent, and the ids of the callbacks that were invoked (in
invocation order). -/
structure DispatchResult where
  state : MuxState
  sent : List WSMessage
  invoked : List Nat
  deriving DecidableEq, Repr

/-- `listeners.get(key)?.forEach(listener => listener(update))` inside
the surrounding try/catch: callbacks run in insertion order; a throwing
callback aborts the iteration (the exception is caught and logged by the
outer catch), so callbacks after the first throwing one never run. -/
def runInvoke : List Cb → List Nat
  | [] => []
  | c :: rest => if c.throws then [c.id] else c.id :: runInvoke rest

/-- `handleCompletionMessage(data, key)`: mark the key completed and, if
the socket is open, echo a `CLOSE` frame. -/
def handleCompletionMessage (st : MuxState) (f : Frame) (key : String) :
    MuxState × List WSMessage :=
  ({ st with completedPaths := addPath st.completedPaths key },
   if socketIsOpen st.socket then
     [{ clusterId := f.clusterId.getD "", path := f.path.getD "",
        query := f.query.getD "", userId := f.userId.getD "", type := "CLOSE" }]
   else [])

/-- `handleWebSocketMessage(event)`: frames lacking a truthy `clusterId`
or `path` are ignored; a `COMPLETE` frame goes to
`handleCompletionMessage`; frames for a completed key are dropped; any
other frame is delivered to the key's listeners (a malformed nested
`data` payload throws in `JSON.parse` before the loop, is caught, and
nothing is delivered). -/
def handleWebSocketMessage (st : MuxState) (f : Frame) : DispatchResult :=
  if truthy f.clusterId && truthy f.path then
    let key := createKey (f.clusterId.getD "") (f.path.getD "") (f.query.getD "")
    if f.type = some "COMPLETE" then
      let r := handleCompletionMessage st f key
      { state := r.1, sent := r.2, invoked := [] }
    else if key ∈ st.completedPaths then
      { state := st, sent := [], invoked := [] }
    else if truthy f.data && f.dataMalformed then
      { state := st, sent := [], invoked := [] }
    else
      { state := st, sent := [], invoked := runInvoke ((lookupCbs st.listeners key).getD []) }
  else
    { state := st, sent := [], invoked := [] }

/-- `subscribe(clusterId, path, query, onMessage)`: registers the
callback under the derived key, connects (so the socket ends up open),
and sends one `REQUEST` frame. -/
def subscribe (st : MuxState) (clusterId path query userId : String) (cb : Cb) :
    MuxState × List WSMessage :=
  let key := createKey clusterId path query
  let ls := match lookupCbs st.listeners key with
    | some s => setCbs st.listeners key (addCb s cb)
    | none => setCbs st.listeners key (addCb [] cb)
  ({ st with listeners := ls, socket := some true },
   [{ clusterId := clusterId, path := path, query := query,
      userId := userId, type := "REQUEST" }])

/-- `handleUnsubscribe(key, onMessage, userId, path, query)`: drop the
callback from the key's set; if the set became empty, delete the key,
clear its completed-path marker, and (socket open) send a `CLOSE` frame
whose cluster id is recovered from the key; finally, if no keys remain
and a socket exists, close it and clear the reference. -/
def handleUnsubscribe (st : MuxState) (key : String) (cb : Cb)
    (userId path query : String) : MuxState × List WSMessage :=
  let step1 : MuxState × List WSMessage :=
    match lookupCbs st.listeners key with
    | none => (st, [])
    | some s =>
      let s1 := s.filter (fun c => !(c = cb))
      if s1.isEmpty then
        ({ st with listeners := removeKey st.listeners key,
                   completedPaths := st.completedPaths.filter (fun k => !(k = key)) },
         if socketIsOpen st.socket then
           [{ clusterId := splitHead key, path := path, query := query,
              userId := userId, type := "CLOSE" }]
         else [])
      else
        ({ st with listeners := setCbs st.listeners key s1 }, [])
  if step1.1.listeners.isEmpty && step1.1.socket.isSome then
    ({ step1.1 with socket := none }, step1.2)
  else
    step1

/-- The registry invariant of the multiplexer: every key present in the
listeners map has at least one registered callback. -/
abbrev goodRegistry (st : MuxState) : Prop :=
  ∀ p ∈ st.listeners, p.2 ≠ []

/-! ### The multi-endpoint failover router (`repeatStreamFunc`)

`repeatStreamFunc` starts the stream function against candidate 0 and
installs `cancel` as the error callback each reconciler reports into.
Its state is the closure state `(isCancelled, endpointIndex)` plus which
candidate's stream is currently active; observable effects are the
cancellation of the active stream, the start of a new one, and the
propagation of an error to the caller's `errCb`. -/

structure RouterState where
  isCancelled : Bool
  endpointIndex : Nat
  active : Option Nat
  deriving DecidableEq, Repr

inductive RAction
  | cancelStream (i : Nat)
  | startStream (i : Nat)
  | propagate
  deriving DecidableEq, Repr

/-- The initial `runStreamFunc(endpointIndex++, ...)` call: candidate 0
is started and `endpointIndex` becomes 1. -/
def routerStart : RouterState × List RAction :=
  ({ isCancelled := false, endpointIndex := 1, active := some 0 },
   [RAction.startStream 0])

/-- The `cancel` error callback of `repeatStreamFunc`, reached when the
active candidate reports an error: with a 404 and a remaining candidate
it cancels the reporting candidate's stream (when a cancel handle was
passed) and starts the next candidate; otherwise the error propagates to
the caller's `errCb`. -/
def routerOnError (n : Nat) (st : RouterState) (status : Nat)
    (hasCancelHandle : Bool) : RouterState × List RAction :=
  if st.isCancelled then (st, [])
  else if status = 404 && decide (st.endpointIndex < n) then
    ({ st with endpointIndex := st.endpointIndex + 1, active := some st.endpointIndex },
     (if hasCancelHandle then
        match st.active with
        | some a => [RAction.cancelStream a]
        | none => []
      else []) ++ [RAction.startStream st.endpointIndex])
  else
    (st, [RAction.propagate])

/-- The handle returned by `repeatStreamFunc`: sets `isCancelled` and
cancels the stored stream. -/
def routerCancel (st : RouterState) : RouterState × List RAction :=
  ({ st with isCancelled := true, active := none },
   match st.active with
   | some a => [RAction.cancelStream a]
   | none => [])

/-! ## Basic lemmas about the collection and the event handler -/

theorem getVal_setVal_self (c : Coll) (u : String) (o : KubeObject) :
    getVal (setVal c u o) u = some o := by
  induction c with
  | nil => simp [setVal, getVal]
  | cons p rest ih =>
    obtain ⟨k, w⟩ := p
    by_cases h : k = u
    · simp [setVal, getVal, h]
    · simp [setVal, getVal, h, ih]

theorem getVal_setVal_ne (c : Coll) (u u2 : String) (o : KubeObject)
    (h : u2 ≠ u) : getVal (setVal c u2 o) u = getVal c u := by
  induction c with
  | nil => simp [setVal, getVal, h]
  | cons p rest ih =>
    obtain ⟨k, w⟩ := p
    by_cases hk : k = u2
    · subst hk
      simp [setVal, getVal, h]
    · simp only [setVal, if_neg hk]
      by_cases hku : k = u
      · simp [getVal, hku]
      · simp [getVal, hku, ih]

theorem truthy_eq_some {o : Option String} (h : truthy o = true) :
    ∃ s, o = some s := by
  cases o with
  | none => simp [truthy] at h
  | some s => exact ⟨s, rfl⟩

theorem nanLt_some {v : Int} {nv : Option Int} (h : nanLt (some v) nv = true) :
    ∃ w, nv = some w ∧ v < w := by
  cases nv with
  | none => simp [nanLt] at h
  | some w => exact ⟨w, rfl, by simpa [nanLt] using h⟩

theorem update_pushed (c : Coll) (tp : String) (o : KubeObject) :
    (update c tp o).pushed = [values (update c tp o).results] := rfl

/-- Characterization of the `MODIFIED` arm of `update` when the uid is
already stored. -/
theorem update_modified_results_some (c : Coll) (o ex : KubeObject)
    (hex : getVal c o.metadata.uid = some ex) :
    (update c "MODIFIED" o).results =
      (if (!truthy ex.metadata.resourceVersion
            || !truthy o.metadata.resourceVersion) = true then c
       else if nanLt (parseIntJS (ex.metadata.resourceVersion.getD ""))
                     (parseIntJS (o.metadata.resourceVersion.getD "")) = true then
         setVal c o.metadata.uid { o with actionType := some "MODIFIED" }
       else c) := by
  simp [update, hex, apply_ite (f := Prod.fst)]

/-- Characterization of the `MODIFIED` arm of `update` when the uid is
not yet stored: the object is inserted unconditionally, nothing is
logged, and the grown collection is pushed. -/
theorem update_modified_results_none (c : Coll) (o : KubeObject)
    (hnone : getVal c o.metadata.uid = none) :
    update c "MODIFIED" o =
      { results := setVal c o.metadata.uid { o with actionType := some "MODIFIED" },
        pushed := [values (setVal c o.metadata.uid { o with actionType := some "MODIFIED" })],
        errors := 0 } := by
  simp [update, hnone]

/-- A `MODIFIED` frame for an item that is stored with a parseable
version can only keep the stored parsed version or increase it. -/
theorem update_modified_mono (c : Coll) (u : String) (o : KubeObject) (v : Int)
    (hu : o.metadata.uid = u) (hv : itemVersion c u = some v) :
    ∃ w, itemVersion (update c "MODIFIED" o).results u = some w ∧ v ≤ w := by
  obtain ⟨ex, hex, hexv⟩ : ∃ ex, getVal c u = some ex ∧ objVersion ex = some v := by
    unfold itemVersion at hv
    cases h : getVal c u with
    | none => rw [h] at hv; cases hv
    | some ex => rw [h] at hv; exact ⟨ex, rfl, hv⟩
  have hex2 : getVal c o.metadata.uid = some ex := by rw [hu]; exact hex
  rw [update_modified_results_some c o ex hex2, hu]
  by_cases hg : (!truthy ex.metadata.resourceVersion
      || !truthy o.metadata.resourceVersion) = true
  · rw [if_pos hg]
    exact ⟨v, hv, le_refl v⟩
  · rw [if_neg hg]
    simp only [Bool.or_eq_true, Bool.not_eq_eq_eq_not, Bool.not_true, not_or,
      Bool.not_eq_false] at hg
    obtain ⟨hte, hto⟩ := hg
    obtain ⟨s1, hs1⟩ := truthy_eq_some hte
    obtain ⟨s2, hs2⟩ := truthy_eq_some hto
    have hcur : parseIntJS (ex.metadata.resourceVersion.getD "") = some v := by
      unfold objVersion at hexv
      rw [hs1] at hexv ⊢
      simpa using hexv
    rw [hcur, hs2]
    simp only [Option.getD_some]
    by_cases hlt : nanLt (some v) (parseIntJS s2) = true
    · rw [if_pos hlt]
      obtain ⟨w, hw, hvw⟩ := nanLt_some hlt
      refine ⟨w, ?_, le_of_lt hvw⟩
      unfold itemVersion
      rw [getVal_setVal_self]
      unfold objVersion
      simpa [hs2] using hw
    · rw [if_neg hlt]
      exact ⟨v, hv, le_refl v⟩

/-- A `MODIFIED` frame whose parsed version is less than or equal to the
stored parsed version leaves the collection unchanged. -/
theorem update_modified_rejected (c : Coll) (u : String) (o : KubeObject)
    (v w : Int) (hu : o.metadata.uid = u) (hv : itemVersion c u = some v)
    (hw : objVersion o = some w) (hwv : w ≤ v) :
    (update c "MODIFIED" o).results = c := by
  obtain ⟨ex, hex, hexv⟩ : ∃ ex, getVal c u = some ex ∧ objVersion ex = some v := by
    unfold itemVersion at hv
    cases h : getVal c u with
    | none => rw [h] at hv; cases hv
    | some ex => rw [h] at hv; exact ⟨ex, rfl, hv⟩
  have hex2 : getVal c o.metadata.uid = some ex := by rw [hu]; exact hex
  rw [update_modified_results_some c o ex hex2, hu]
  by_cases hg : (!truthy ex.metadata.resourceVersion
      || !truthy o.metadata.resourceVersion) = true
  · rw [if_pos hg]
  · rw [if_neg hg]
    simp only [Bool.or_eq_true, Bool.not_eq_eq_eq_not, Bool.not_true, not_or,
      Bool.not_eq_false] at hg
    obtain ⟨hte, hto⟩ := hg
    obtain ⟨s1, hs1⟩ := truthy_eq_some hte
    obtain ⟨s2, hs2⟩ := truthy_eq_some hto
    have hcur : parseIntJS (ex.metadata.resourceVersion.getD "") = some v := by
      unfold objVersion at hexv
      rw [hs1] at hexv ⊢
      simpa using hexv
    have hnew : parseIntJS (s2) = some w := by
      unfold objVersion at hw
      rw [hs2] at hw
      exact hw
    rw [hcur, hs2]
    simp only [Option.getD_some, hnew]
    rw [if_neg]
    simp [nanLt, Int.not_lt.mpr hwv]

/-- If a `MODIFIED` frame changes the collection at all, its parsed
version is strictly greater than the stored parsed version. -/
theorem update_modified_strict (c : Coll) (u : String) (o : KubeObject)
    (v : Int) (hu : o.metadata.uid = u) (hv : itemVersion c u = some v)
    (hne : (update c "MODIFIED" o).results ≠ c) :
    ∃ w, objVersion o = some w ∧ v < w := by
  obtain ⟨ex, hex, hexv⟩ : ∃ ex, getVal c u = some ex ∧ objVersion ex = some v := by
    unfold itemVersion at hv
    cases h : getVal c u with
    | none => rw [h] at hv; cases hv
    | some ex => rw [h] at hv; exact ⟨ex, rfl, hv⟩
  have hex2 : getVal c o.metadata.uid = some ex := by rw [hu]; exact hex
  rw [update_modified_results_some c o ex hex2, hu] at hne
  by_cases hg : (!truthy ex.metadata.resourceVersion
      || !truthy o.metadata.resourceVersion) = true
  · rw [if_pos hg] at hne
    exact absurd rfl hne
  · rw [if_neg hg] at hne
    simp only [Bool.or_eq_true, Bool.not_eq_eq_eq_not, Bool.not_true, not_or,
      Bool.not_eq_false] at hg
    obtain ⟨hte, hto⟩ := hg
    obtain ⟨s1, hs1⟩ := truthy_eq_some hte
    obtain ⟨s2, hs2⟩ := truthy_eq_some hto
    have hcur : parseIntJS (ex.metadata.resourceVersion.getD "") = some v := by
      unfold objVersion at hexv
      rw [hs1] at hexv ⊢
      simpa using hexv
    rw [hcur, hs2] at hne
    simp only [Option.getD_some] at hne
    by_cases hlt : nanLt (some v) (parseIntJS s2) = true
    · obtain ⟨w, hw, hvw⟩ := nanLt_some hlt
      refine ⟨w, ?_, hvw⟩
      unfold objVersion
      rw [hs2]
      exact hw
    · rw [if_neg hlt] at hne
      exact absurd rfl hne

/-- Monotonicity over an arbitrary sequence of `MODIFIED` frames for one
item. -/
theorem applyEvents_modified_mono (u : String) (evs : List WatchEvent) :
    ∀ (c : Coll) (v : Int),
      (∀ e ∈ evs, e.type = "MODIFIED" ∧ e.object.metadata.uid = u) →
      itemVersion c u = some v →
      ∃ w, itemVersion (applyEvents c evs) u = some w ∧ v ≤ w := by
  induction evs with
  | nil =>
    intro c v _ hv
    exact ⟨v, hv, le_refl v⟩
  | cons e rest ih =>
    intro c v hall hv
    obtain ⟨ht, hu⟩ := hall e (List.mem_cons_self e rest)
    have hstep : applyEvents c (e :: rest)
        = applyEvents (update c e.type e.object).results rest := rfl
    rw [hstep, ht]
    obtain ⟨w, hw, hvw⟩ := update_modified_mono c u e.object v hu hv
    obtain ⟨w2, hw2, hww2⟩ := ih (update c "MODIFIED" e.object).results w
      (fun x hx => hall x (List.mem_cons_of_mem e hx)) hw
    exact ⟨w2, hw2, le_trans hvw hww2⟩

/-! ## Claim C1 -/

/-- C1: In `streamResults`, a `MODIFIED` event for a stored item replaces
it only when the incoming resource version, parsed as an integer, is
strictly greater than the stored one; consequently, over any sequence of
`MODIFIED` events applied to one item the stored parsed version is
non-decreasing, and an event whose parsed version is less than or equal
to the current one leaves the collection unchanged. -/
theorem C1_streamResults_modified_monotonic :
    (∀ (c : Coll) (u : String) (evs : List WatchEvent) (v : Int),
        (∀ e ∈ evs, e.type = "MODIFIED" ∧ e.object.metadata.uid = u) →
        itemVersion c u = some v →
        ∃ w, itemVersion (applyEvents c evs) u = some w ∧ v ≤ w)
    ∧ (∀ (c : Coll) (u : String) (o : KubeObject) (v w : Int),
        o.metadata.uid = u → itemVersion c u = some v →
        objVersion o = some w → w ≤ v →
        (update c "MODIFIED" o).results = c)
    ∧ (∀ (c : Coll) (u : String) (o : KubeObject) (v : Int),
        o.metadata.uid = u → itemVersion c u = some v →
        (update c "MODIFIED" o).results ≠ c →
        ∃ w, objVersion o = some w ∧ v < w) :=
  ⟨fun c u evs v hall hv => applyEvents_modified_mono u evs c v hall hv,
   fun c u o v w hu hv hw hwv => update_modified_rejected c u o v w hu hv hw hwv,
   fun c u o v hu hv hne => update_modified_strict c u o v hu hv hne⟩

/-- Witness for C1 at the end-to-end scenario of the spec: item uid `1`
stored at version `5`, a `MODIFIED` at version `6` is applied, a
`MODIFIED` at version `4` is a no-op. -/
theorem C1_streamResults_modified_monotonic_witness :
    (∃ w, itemVersion
        (applyEvents [("1", ⟨"Pod", ⟨"1", some "5"⟩, none⟩)]
          [⟨"MODIFIED", ⟨"Pod", ⟨"1", some "6"⟩, none⟩⟩]) "1"
          = some w ∧ (5 : Int) ≤ w)
    ∧ (update [("1", (⟨"Pod", ⟨"1", some "5"⟩, none⟩ : KubeObject))] "MODIFIED"
        ⟨"Pod", ⟨"1", some "4"⟩, none⟩).results
      = [("1", ⟨"Pod", ⟨"1", some "5"⟩, none⟩)]
    ∧ (∃ w, objVersion (⟨"Pod", ⟨"1", some "7"⟩, none⟩ : KubeObject) = some w
        ∧ (5 : Int) < w) := by
  refine ⟨?_, ?_, ?_⟩
  · exact C1_streamResults_modified_monotonic.1
      [("1", ⟨"Pod", ⟨"1", some "5"⟩, none⟩)]
      "1" [⟨"MODIFIED", ⟨"Pod", ⟨"1", some "6"⟩, none⟩⟩] 5 (by decide) (by decide)
  · exact C1_streamResults_modified_monotonic.2.1
      [("1", ⟨"Pod", ⟨"1", some "5"⟩, none⟩)]
      "1" ⟨"Pod", ⟨"1", some "4"⟩, none⟩ 5 4 (by decide) (by decide) (by decide) (by decide)
  · exact C1_streamResults_modified_monotonic.2.2
      [("1", ⟨"Pod", ⟨"1", some "5"⟩, none⟩)]
      "1" ⟨"Pod", ⟨"1", some "7"⟩, none⟩ 5 (by decide) (by decide) (by decide)

/-! ## Claim C2 -/

/-- C2 counterexample: with item uid `1` stored at version `5`, a
`MODIFIED` event at version `4` is rejected — the collection is unchanged
— yet the caller callback is still invoked once with the full collection:
`push()` in `update` runs unconditionally after the switch, so a rejected
event does produce a push, contradicting the claim's "no push". -/
theorem C2_rejected_push_counterexample :
    (update [("1", (⟨"Pod", ⟨"1", some "5"⟩, none⟩ : KubeObject))] "MODIFIED"
        ⟨"Pod", ⟨"1", some "4"⟩, none⟩).results
      = [("1", ⟨"Pod", ⟨"1", some "5"⟩, none⟩)]
    ∧ (update [("1", (⟨"Pod", ⟨"1", some "5"⟩, none⟩ : KubeObject))] "MODIFIED"
        ⟨"Pod", ⟨"1", some "4"⟩, none⟩).pushed
      = [[⟨"Pod", ⟨"1", some "5"⟩, none⟩]] := by
  decide

/-- C2 amended: the caller's callback is invoked with the full collection
exactly once per processed event, accepted or not; in particular a
`MODIFIED` event rejected by the version check leaves the collection
unchanged but still pushes the (unchanged) collection once. -/
theorem C2_per_event_push :
    (∀ (c : Coll) (tp : String) (o : KubeObject),
        (update c tp o).pushed = [values (update c tp o).results])
    ∧ (∀ (c : Coll) (u : String) (o : KubeObject) (v w : Int),
        o.metadata.uid = u → itemVersion c u = some v →
        objVersion o = some w → w ≤ v →
        (update c "MODIFIED" o).results = c
        ∧ (update c "MODIFIED" o).pushed = [values c]) := by
  refine ⟨fun c tp o => update_pushed c tp o, ?_⟩
  intro c u o v w hu hv hw hwv
  have hres := update_modified_rejected c u o v w hu hv hw hwv
  exact ⟨hres, by rw [update_pushed, hres]⟩

/-- Witness for the amended C2 at the spec's scenario. -/
theorem C2_per_event_push_witness :
    (update [("1", (⟨"Pod", ⟨"1", some "5"⟩, none⟩ : KubeObject))] "MODIFIED"
        ⟨"Pod", ⟨"1", some "4"⟩, none⟩).results
      = [("1", ⟨"Pod", ⟨"1", some "5"⟩, none⟩)]
    ∧ (update [("1", (⟨"Pod", ⟨"1", some "5"⟩, none⟩ : KubeObject))] "MODIFIED"
        ⟨"Pod", ⟨"1", some "4"⟩, none⟩).pushed
      = [values [("1", ⟨"Pod", ⟨"1", some "5"⟩, none⟩)]] :=
  C2_per_event_push.2
    [("1", ⟨"Pod", ⟨"1", some "5"⟩, none⟩)]
    "1" ⟨"Pod", ⟨"1", some "4"⟩, none⟩ 5 4 (by decide) (by decide) (by decide) (by decide)

/-! ## Claim C10 -/

/-- C10: a `MODIFIED` event whose uid is not yet in the collection is
inserted unconditionally — no version check is involved, no error is
logged — and the collection, now containing the object, is pushed. -/
theorem C10_modified_insert (c : Coll) (u : String) (o : KubeObject)
    (hu : o.metadata.uid = u) (hnone : getVal c u = none) :
    (update c "MODIFIED" o).results = setVal c u { o with actionType := some "MODIFIED" }
    ∧ (update c "MODIFIED" o).errors = 0
    ∧ (update c "MODIFIED" o).pushed
        = [values (setVal c u { o with actionType := some "MODIFIED" })]
    ∧ getVal (update c "MODIFIED" o).results u
        = some { o with actionType := some "MODIFIED" } := by
  have h2 : getVal c o.metadata.uid = none := by rw [hu]; exact hnone
  have heq := update_modified_results_none c o h2
  rw [hu] at heq
  refine ⟨?_, ?_, ?_, ?_⟩ <;> simp [heq, getVal_setVal_self]

/-- Witness for C10: a `MODIFIED` event for a fresh uid on the empty
collection. -/
theorem C10_modified_insert_witness :
    (update ([] : Coll) "MODIFIED" ⟨"Pod", ⟨"2", some "3"⟩, none⟩).results
      = setVal [] "2" ⟨"Pod", ⟨"2", some "3"⟩, some "MODIFIED"⟩
    ∧ (update ([] : Coll) "MODIFIED" ⟨"Pod", ⟨"2", some "3"⟩, none⟩).errors = 0
    ∧ (update ([] : Coll) "MODIFIED" ⟨"Pod", ⟨"2", some "3"⟩, none⟩).pushed
        = [values (setVal [] "2" ⟨"Pod", ⟨"2", some "3"⟩, some "MODIFIED"⟩)]
    ∧ getVal (update ([] : Coll) "MODIFIED" ⟨"Pod", ⟨"2", some "3"⟩, none⟩).results "2"
        = some ⟨"Pod", ⟨"2", some "3"⟩, some "MODIFIED"⟩ :=
  C10_modified_insert [] "2" ⟨"Pod", ⟨"2", some "3"⟩, none⟩ (by decide) (by decide)

/-! ## Lemmas for the snapshot path -/

theorem jsSliceMinus4_append (k : String) : jsSliceMinus4 (k ++ "List") = k := by
  apply String.ext
  show ((k ++ "List").data.take ((k ++ "List").data.length - 4)) = k.data
  rw [String.data_append, List.length_append]
  have h4 : ("List" : String).data.length = 4 := rfl
  rw [h4, Nat.add_sub_cancel]
  exact List.take_left k.data ("List" : String).data

theorem addItems_getVal_not_mem (items : List KubeObject) (fk : String) :
    ∀ (c : Coll) (u : String), (∀ it ∈ items, it.metadata.uid ≠ u) →
      getVal (addItems c items fk) u = getVal c u := by
  induction items with
  | nil => intro c u _; rfl
  | cons it rest ih =>
    intro c u h
    have hstep : addItems c (it :: rest) fk
        = addItems (setVal c it.metadata.uid { it with kind := fk }) rest fk := rfl
    rw [hstep, ih _ u (fun x hx => h x (List.mem_cons_of_mem it hx)),
        getVal_setVal_ne _ _ _ _ (h it (List.mem_cons_self it rest))]

theorem addItems_getVal_mem (fk : String) :
    ∀ (items : List KubeObject),
      (items.map (fun it => it.metadata.uid)).Nodup →
      ∀ (c : Coll), ∀ it ∈ items,
        getVal (addItems c items fk) it.metadata.uid = some { it with kind := fk } := by
  intro items
  induction items with
  | nil => intro _ c it h; cases h
  | cons x rest ih =>
    intro hdist c it hit
    rw [List.map_cons, List.nodup_cons] at hdist
    obtain ⟨hx, hrest⟩ := hdist
    have hstep : addItems c (x :: rest) fk
        = addItems (setVal c x.metadata.uid { x with kind := fk }) rest fk := rfl
    rcases List.mem_cons.mp hit with h | h
    · subst h
      have hne : ∀ it2 ∈ rest, it2.metadata.uid ≠ it.metadata.uid := by
        intro it2 h2 heq
        exact hx (heq ▸ List.mem_map_of_mem (fun i => i.metadata.uid) h2)
      rw [hstep, addItems_getVal_not_mem rest fk _ _ hne, getVal_setVal_self]
    · rw [hstep]
      exact ih hrest _ it h

/-! ## Claim C9 -/

/-- C9: after a successful snapshot fetch, every snapshot item is stored
under its metadata uid with its kind overwritten by the list kind trimmed
of the trailing `List` suffix, and the full collection is pushed to the
caller exactly once, before the watch stream is opened. -/
theorem C9_snapshot (snap : Snapshot) (k : String)
    (hkind : snap.kind = k ++ "List")
    (hdist : (snap.items.map (fun it => it.metadata.uid)).Nodup) :
    (∀ it ∈ snap.items,
        getVal (srOnSnapshot srInit snap).1.results it.metadata.uid
          = some { it with kind := k })
    ∧ (srOnSnapshot srInit snap).2
        = [SRAction.push (values (srOnSnapshot srInit snap).1.results),
           SRAction.openWatch snap.resourceVersion] := by
  have hres : (srOnSnapshot srInit snap).1.results
      = addItems [] snap.items (jsSliceMinus4 snap.kind) := rfl
  have hacts : (srOnSnapshot srInit snap).2
      = [SRAction.push (values (addItems [] snap.items (jsSliceMinus4 snap.kind))),
         SRAction.openWatch snap.resourceVersion] := rfl
  constructor
  · intro it hit
    rw [hres, hkind, jsSliceMinus4_append]
    exact addItems_getVal_mem k snap.items hdist [] it hit
  · rw [hacts, hres]

/-- Witness for C9 at the spec's end-to-end scenario: a `PodList`
snapshot with one item. -/
theorem C9_snapshot_witness :
    (∀ it ∈ [(⟨"x", ⟨"1", some "5"⟩, none⟩ : KubeObject)],
        getVal (srOnSnapshot srInit
            ⟨"PodList", [⟨"x", ⟨"1", some "5"⟩, none⟩], "5"⟩).1.results
          it.metadata.uid = some { it with kind := "Pod" })
    ∧ (srOnSnapshot srInit ⟨"PodList", [⟨"x", ⟨"1", some "5"⟩, none⟩], "5"⟩).2
        = [SRAction.push (values (srOnSnapshot srInit
              ⟨"PodList", [⟨"x", ⟨"1", some "5"⟩, none⟩], "5"⟩).1.results),
           SRAction.openWatch "5"] :=
  C9_snapshot ⟨"PodList", [⟨"x", ⟨"1", some "5"⟩, none⟩], "5"⟩ "Pod"
    (by decide) (by decide)

/-! ## Lemmas for cancellation -/

theorem srCancel_idem (s : SRState) : srCancel (srCancel s) = srCancel s := by
  by_cases h : s.isCancelled <;> simp [srCancel, h]

theorem streamStateCancel_idem (st : StreamState) :
    streamStateCancel (streamStateCancel st) = streamStateCancel st := by
  cases hc : st.conn <;> simp [streamStateCancel, hc]

theorem iterate_of_idem {α : Type} (f : α → α) (hf : ∀ x, f (f x) = f x) :
    ∀ (n : Nat) (x : α), f^[n] (f x) = f x := by
  intro n
  induction n with
  | zero => intro x; rfl
  | succ m ih => intro x; rw [Function.iterate_succ_apply, hf, ih]

theorem iterate_one_le {α : Type} (f : α → α) (hf : ∀ x, f (f x) = f x)
    (n : Nat) (hn : 1 ≤ n) (x : α) : f^[n] x = f x := by
  obtain ⟨m, hm⟩ := Nat.exists_eq_add_of_le hn
  subst hm
  rw [Nat.add_comm, Function.iterate_succ_apply]
  exact iterate_of_idem f hf m x

/-! ## Claim C7 -/

/-- C7 counterexample: an unexpected close while not cancelled schedules
a reconnect timer; `cancel()` then sets the flag and closes the dead
connection but never clears the timer; when the timer fires, `connect()`
runs despite `isCancelled = true` and installs a fresh live connection
whose `onMessage` delivers frames to the callback — so a reconnect and
further data callbacks do occur after the first cancel, contradicting
the claim's "no reconnect occurs, no further data callback invocation
... from a reconnect". -/
theorem C7_pending_timer_counterexample :
    streamTimerFire (streamStateCancel (streamOnFail true
        { isCancelled := false, pendingReconnect := false,
          conn := some { isClosing := true, socketAlive := false } }))
      = { isCancelled := true, pendingReconnect := false,
          conn := some { isClosing := false, socketAlive := true } }
    ∧ connOnMessageDelivers { isClosing := false, socketAlive := true } = true := by
  decide

/-- C7 amended: the cancellation handles of `streamResults` and of
`stream` are idempotent — any number of calls at least one yields the
state of a single call, with the live connection closed — and after the
first cancel no new reconnect is scheduled (an unexpected close
processed after the cancel changes nothing), no push results from a
snapshot fetch that resolves later, and the closed connection delivers
no frames.  However, a reconnect timer already pending when the handle
is first called is not cleared: when it fires, `connect()` reconnects
regardless of cancellation and the fresh connection delivers frames. -/
theorem C7_cancellation_idempotent :
    (∀ (s : SRState) (n : Nat), 1 ≤ n → srCancel^[n] s = srCancel s)
    ∧ (∀ (st : StreamState) (n : Nat), 1 ≤ n →
        streamStateCancel^[n] st = streamStateCancel st)
    ∧ (∀ (s : SRState) (st : StreamState) (c : ConnState),
        s.isCancelled = false → s.socket = some st → st.conn = some c →
        (srCancel s).socket
          = some { isCancelled := true, pendingReconnect := st.pendingReconnect,
                   conn := some { isClosing := true, socketAlive := false } })
    ∧ (∀ (st : StreamState) (recon : Bool),
        streamOnFail recon (streamStateCancel st) = streamStateCancel st)
    ∧ (∀ (s : SRState) (snap : Snapshot), (srOnSnapshot (srCancel s) snap).2 = [])
    ∧ (∀ (st : StreamState) (c : ConnState),
        (streamStateCancel st).conn = some c → connOnMessageDelivers c = false)
    ∧ (∀ (st : StreamState), st.pendingReconnect = true →
        streamTimerFire (streamStateCancel st)
          = { isCancelled := true, pendingReconnect := false,
              conn := some { isClosing := false, socketAlive := true } }) := by
  refine ⟨?_, ?_, ?_, ?_, ?_, ?_, ?_⟩
  · intro s n hn
    exact iterate_one_le srCancel srCancel_idem n hn s
  · intro st n hn
    exact iterate_one_le streamStateCancel streamStateCancel_idem n hn st
  · intro s st c hs hsock hconn
    simp [srCancel, hs, hsock, streamStateCancel, hconn]
  · intro st recon
    cases hc : st.conn <;> cases recon <;> simp [streamOnFail, streamStateCancel, hc]
  · intro s snap
    by_cases h : s.isCancelled <;> simp [srOnSnapshot, srCancel, h]
  · intro st c hc
    cases h : st.conn with
    | none => simp [streamStateCancel, h] at hc
    | some c0 =>
      simp [streamStateCancel, h] at hc
      simp [connOnMessageDelivers, ← hc]
  · intro st hp
    cases hc : st.conn <;> simp [streamTimerFire, streamStateCancel, hc, hp]

/-- Witness for the amended C7: a double cancel on the initial
reconciler state, a cancel of a reconciler holding a fresh live socket,
a failure processed after cancel, and a timer pending at cancel time
that reconnects when it fires. -/
theorem C7_cancellation_idempotent_witness :
    srCancel^[2] srInit = srCancel srInit
    ∧ streamStateCancel^[2] freshStream = streamStateCancel freshStream
    ∧ (srCancel { isCancelled := false, socket := some freshStream, results := [] }).socket
        = some { isCancelled := true, pendingReconnect := false,
                 conn := some { isClosing := true, socketAlive := false } }
    ∧ streamOnFail true (streamStateCancel freshStream) = streamStateCancel freshStream
    ∧ (srOnSnapshot (srCancel srInit) ⟨"PodList", [], "5"⟩).2 = []
    ∧ connOnMessageDelivers { isClosing := true, socketAlive := false } = false
    ∧ streamTimerFire (streamStateCancel
        { isCancelled := false, pendingReconnect := true,
          conn := some { isClosing := true, socketAlive := false } })
        = { isCancelled := true, pendingReconnect := false,
            conn := some { isClosing := false, socketAlive := true } } :=
  ⟨C7_cancellation_idempotent.1 srInit 2 (by decide),
   C7_cancellation_idempotent.2.1 freshStream 2 (by decide),
   C7_cancellation_idempotent.2.2.1
     { isCancelled := false, socket := some freshStream, results := [] }
     freshStream { isClosing := false, socketAlive := true }
     (by decide) (by decide) (by decide),
   C7_cancellation_idempotent.2.2.2.1 freshStream true,
   C7_cancellation_idempotent.2.2.2.2.1 srInit ⟨"PodList", [], "5"⟩,
   C7_cancellation_idempotent.2.2.2.2.2.1 freshStream
     { isClosing := true, socketAlive := false } (by decide),
   C7_cancellation_idempotent.2.2.2.2.2.2
     { isCancelled := false, pendingReconnect := true,
       conn := some { isClosing := true, socketAlive := false } }
     (by decide)⟩

/-! ## Lemmas for the multiplexer registries -/

theorem addPath_mem {l : List String} {x : String} (s : String) (h : x ∈ l) :
    x ∈ addPath l s := by
  unfold addPath
  split
  · exact h
  · exact List.mem_append_left _ h

theorem addPath_self (l : List String) (s : String) : s ∈ addPath l s := by
  unfold addPath
  split
  · assumption
  · exact List.mem_append_right _ (List.mem_singleton_self s)

theorem lookupCbs_ne_nil {l : List (String × List Cb)} {key : String} {s : List Cb}
    (h : lookupCbs l key = some s) : l ≠ [] := by
  cases l with
  | nil => simp [lookupCbs] at h
  | cons p rest => simp

theorem setCbs_ne_nil (l : List (String × List Cb)) (key : String) (v : List Cb)
    (h : l ≠ []) : setCbs l key v ≠ [] := by
  cases l with
  | nil => exact absurd rfl h
  | cons p rest =>
    obtain ⟨k, w⟩ := p
    unfold setCbs
    split <;> simp

theorem lookupCbs_setCbs_self (l : List (String × List Cb)) (key : String) (v : List Cb) :
    lookupCbs (setCbs l key v) key = some v := by
  induction l with
  | nil => simp [setCbs, lookupCbs]
  | cons p rest ih =>
    obtain ⟨k, w⟩ := p
    by_cases h : k = key <;> simp [setCbs, lookupCbs, h, ih]

theorem lookupCbs_eq_none (l : List (String × List Cb)) (key : String)
    (h : key ∉ l.map Prod.fst) : lookupCbs l key = none := by
  induction l with
  | nil => rfl
  | cons p rest ih =>
    obtain ⟨k, w⟩ := p
    rw [List.map_cons, List.mem_cons, not_or] at h
    have hk : ¬ k = key := fun hh => h.1 hh.symm
    simp [lookupCbs, hk, ih h.2]

theorem lookupCbs_removeKey_self (l : List (String × List Cb)) (key : String)
    (hnd : (l.map Prod.fst).Nodup) :
    lookupCbs (removeKey l key) key = none := by
  induction l with
  | nil => simp [removeKey, lookupCbs]
  | cons p rest ih =>
    obtain ⟨k, w⟩ := p
    rw [List.map_cons, List.nodup_cons] at hnd
    obtain ⟨hk, hrest⟩ := hnd
    by_cases h : k = key
    · subst h
      simpa [removeKey] using lookupCbs_eq_none rest k hk
    · simp [removeKey, lookupCbs, h, ih hrest]

theorem mem_setCbs {l : List (String × List Cb)} {key : String} {v : List Cb}
    {p : String × List Cb} (h : p ∈ setCbs l key v) :
    p ∈ l ∨ p.2 = v := by
  induction l with
  | nil =>
    simp [setCbs] at h
    right
    rw [h]
  | cons q rest ih =>
    obtain ⟨k, w⟩ := q
    by_cases hk : k = key
    · rw [show setCbs ((k, w) :: rest) key v = (k, v) :: rest from by
        simp [setCbs, hk]] at h
      rcases List.mem_cons.mp h with h2 | h2
      · right; rw [h2]
      · left; exact List.mem_cons_of_mem _ h2
    · rw [show setCbs ((k, w) :: rest) key v = (k, w) :: setCbs rest key v from by
        simp [setCbs, hk]] at h
      rcases List.mem_cons.mp h with h2 | h2
      · left; rw [h2]; exact List.mem_cons_self _ _
      · rcases ih h2 with h3 | h3
        · left; exact List.mem_cons_of_mem _ h3
        · right; exact h3

theorem mem_removeKey {l : List (String × List Cb)} {key : String}
    {p : String × List Cb} (h : p ∈ removeKey l key) : p ∈ l := by
  induction l with
  | nil => simp [removeKey] at h
  | cons q rest ih =>
    obtain ⟨k, w⟩ := q
    by_cases hk : k = key
    · rw [show removeKey ((k, w) :: rest) key = rest from by simp [removeKey, hk]] at h
      exact List.mem_cons_of_mem _ h
    · rw [show removeKey ((k, w) :: rest) key = (k, w) :: removeKey rest key from by
        simp [removeKey, hk]] at h
      rcases List.mem_cons.mp h with h2 | h2
      · rw [h2]; exact List.mem_cons_self _ _
      · exact List.mem_cons_of_mem _ (ih h2)

theorem addCb_ne_nil (l : List Cb) (c : Cb) : addCb l c ≠ [] := by
  unfold addCb
  split
  · exact List.ne_nil_of_mem (by assumption)
  · simp

theorem runInvoke_singleton (c : Cb) : runInvoke [c] = [c.id] := by
  cases h : c.throws <;> simp [runInvoke, h]

theorem runInvoke_append (pre : List Cb) (c : Cb) (post : List Cb)
    (hpre : ∀ x ∈ pre, x.throws = false) (hc : c.throws = true) :
    runInvoke (pre ++ c :: post) = pre.map (fun x => x.id) ++ [c.id] := by
  induction pre with
  | nil => simp [runInvoke, hc]
  | cons x rest ih =>
    have hx : x.throws = false := hpre x (List.mem_cons_self x rest)
    simp [runInvoke, hx, ih (fun y hy => hpre y (List.mem_cons_of_mem x hy))]

/-! ## Characterizations of `handleUnsubscribe` by case -/

/-- Unsubscribe for an unregistered key: the listener map is untouched;
only the final socket-teardown check runs. -/
theorem handleUnsubscribe_unknown (st : MuxState) (key : String) (cb : Cb)
    (userId path query : String)
    (hs : lookupCbs st.listeners key = none) :
    handleUnsubscribe st key cb userId path query
      = (if st.listeners.isEmpty && st.socket.isSome then ({ st with socket := none }, [])
         else (st, [])) := by
  simp [handleUnsubscribe, hs]

/-- Unsubscribe removing the last callback of a key: the key is deleted,
its completed-path marker cleared, a `CLOSE` frame sent if the socket is
open, and then the socket-teardown check runs. -/
theorem handleUnsubscribe_last (st : MuxState) (key : String) (cb : Cb)
    (userId path query : String) (s : List Cb)
    (hs : lookupCbs st.listeners key = some s)
    (hemp : (s.filter (fun c => !(c = cb))).isEmpty = true) :
    handleUnsubscribe st key cb userId path query
      = (if (removeKey st.listeners key).isEmpty && st.socket.isSome then
           ({ st with listeners := removeKey st.listeners key,
                      completedPaths := st.completedPaths.filter (fun k => !(k = key)),
                      socket := none },
            if socketIsOpen st.socket = true then
              [{ clusterId := splitHead key, path := path, query := query,
                 userId := userId, type := "CLOSE" }]
            else [])
         else
           ({ st with listeners := removeKey st.listeners key,
                      completedPaths := st.completedPaths.filter (fun k => !(k = key)) },
            if socketIsOpen st.socket = true then
              [{ clusterId := splitHead key, path := path, query := query,
                 userId := userId, type := "CLOSE" }]
            else [])) := by
  simp [handleUnsubscribe, hs, hemp]

/-- Unsubscribe leaving other callbacks on the key: only the key's set
shrinks. -/
theorem handleUnsubscribe_keep (st : MuxState) (key : String) (cb : Cb)
    (userId path query : String) (s : List Cb)
    (hs : lookupCbs st.listeners key = some s)
    (hnemp : (s.filter (fun c => !(c = cb))).isEmpty = false) :
    handleUnsubscribe st key cb userId path query
      = (if (setCbs st.listeners key (s.filter (fun c => !(c = cb)))).isEmpty
            && st.socket.isSome then
           ({ st with listeners := setCbs st.listeners key (s.filter (fun c => !(c = cb))),
                      socket := none }, [])
         else
           ({ st with listeners := setCbs st.listeners key (s.filter (fun c => !(c = cb))) },
            [])) := by
  simp [handleUnsubscribe, hs, hnemp]

/-! ## Claim C3 -/

/-- C3: a `COMPLETE` frame for key K marks K completed, delivers nothing
to subscribers, and echoes a `CLOSE` frame to the server (when the socket
is open); afterwards every non-`COMPLETE` frame whose key is K invokes no
listener and changes nothing; inbound dispatch never removes a key from
the completed-path set, which is cleared exactly by the unsubscribe that
removes the key's last callback and is kept by a non-last unsubscribe. -/
theorem C3_completion_gating :
    (∀ (st : MuxState) (f : Frame),
        truthy f.clusterId = true → truthy f.path = true →
        f.type = some "COMPLETE" →
        createKey (f.clusterId.getD "") (f.path.getD "") (f.query.getD "")
            ∈ (handleWebSocketMessage st f).state.completedPaths
        ∧ (handleWebSocketMessage st f).invoked = []
        ∧ (socketIsOpen st.socket = true →
            (handleWebSocketMessage st f).sent
              = [{ clusterId := f.clusterId.getD "", path := f.path.getD "",
                   query := f.query.getD "", userId := f.userId.getD "",
                   type := "CLOSE" }]))
    ∧ (∀ (st : MuxState) (f : Frame),
        createKey (f.clusterId.getD "") (f.path.getD "") (f.query.getD "")
            ∈ st.completedPaths →
        ¬ f.type = some "COMPLETE" →
        (handleWebSocketMessage st f).invoked = []
        ∧ (handleWebSocketMessage st f).state = st)
    ∧ (∀ (st : MuxState) (f : Frame) (K : String),
        K ∈ st.completedPaths →
        K ∈ (handleWebSocketMessage st f).state.completedPaths)
    ∧ (∀ (st : MuxState) (key : String) (cb : Cb) (userId path query : String)
          (s : List Cb),
        lookupCbs st.listeners key = some s →
        ((s.filter (fun c => !(c = cb))).isEmpty = true →
          key ∉ (handleUnsubscribe st key cb userId path query).1.completedPaths)
        ∧ ((s.filter (fun c => !(c = cb))).isEmpty = false →
          (handleUnsubscribe st key cb userId path query).1.completedPaths
            = st.completedPaths)) := by
  refine ⟨?_, ?_, ?_, ?_⟩
  · intro st f h1 h2 ht
    have hred : handleWebSocketMessage st f
        = { state :=
              { st with
                completedPaths :=
                  addPath st.completedPaths
                    (createKey (f.clusterId.getD "") (f.path.getD "") (f.query.getD "")) },
            sent :=
              if socketIsOpen st.socket = true then
                [{ clusterId := f.clusterId.getD "", path := f.path.getD "",
                   query := f.query.getD "", userId := f.userId.getD "",
                   type := "CLOSE" }]
              else [],
            invoked := [] } := by
      simp [handleWebSocketMessage, handleCompletionMessage, h1, h2, ht]
    rw [hred]
    exact ⟨addPath_self _ _, rfl, fun hso => by simp [hso]⟩
  · intro st f hmem hnc
    by_cases h1 : truthy f.clusterId = true
    · by_cases h2 : truthy f.path = true
      · constructor <;> simp [handleWebSocketMessage, h1, h2, hnc, hmem]
      · constructor <;> simp [handleWebSocketMessage, h1, h2]
    · constructor <;> simp [handleWebSocketMessage, h1]
  · intro st f K hK
    simp only [handleWebSocketMessage]
    by_cases h1 : (truthy f.clusterId && truthy f.path) = true
    · rw [if_pos h1]
      by_cases ht : f.type = some "COMPLETE"
      · rw [if_pos ht]
        simpa [handleCompletionMessage] using
          addPath_mem (createKey (f.clusterId.getD "") (f.path.getD "") (f.query.getD "")) hK
      · rw [if_neg ht]
        by_cases hm : createKey (f.clusterId.getD "") (f.path.getD "") (f.query.getD "")
            ∈ st.completedPaths
        · rw [if_pos hm]
          exact hK
        · rw [if_neg hm]
          by_cases hd : (truthy f.data && f.dataMalformed) = true
          · rw [if_pos hd]; exact hK
          · rw [if_neg hd]; exact hK
    · rw [if_neg h1]; exact hK
  · intro st key cb userId path query s hs
    constructor
    · intro hemp
      rw [handleUnsubscribe_last st key cb userId path query s hs hemp]
      split <;> simp [List.mem_filter]
    · intro hnemp
      rw [handleUnsubscribe_keep st key cb userId path query s hs hnemp]
      split <;> rfl

/-- Witness for C3 with one concrete completed key. -/
theorem C3_completion_gating_witness :
    (createKey "c1" "/p" "q"
        ∈ (handleWebSocketMessage { socket := some true, listeners := [], completedPaths := [] }
            ⟨some "c1", some "/p", some "q", some "u", some "COMPLETE", none, false⟩
          ).state.completedPaths
      ∧ (handleWebSocketMessage { socket := some true, listeners := [], completedPaths := [] }
            ⟨some "c1", some "/p", some "q", some "u", some "COMPLETE", none, false⟩
          ).invoked = []
      ∧ (socketIsOpen (some true) = true →
          (handleWebSocketMessage { socket := some true, listeners := [], completedPaths := [] }
              ⟨some "c1", some "/p", some "q", some "u", some "COMPLETE", none, false⟩
            ).sent
            = [{ clusterId := "c1", path := "/p", query := "q", userId := "u",
                 type := "CLOSE" }]))
    ∧ ((handleWebSocketMessage
          { socket := some true,
            listeners := [(createKey "c1" "/p" "q", [⟨1, false⟩])],
            completedPaths := [createKey "c1" "/p" "q"] }
          ⟨some "c1", some "/p", some "q", none, none, none, false⟩).invoked = []
      ∧ (handleWebSocketMessage
          { socket := some true,
            listeners := [(createKey "c1" "/p" "q", [⟨1, false⟩])],
            completedPaths := [createKey "c1" "/p" "q"] }
          ⟨some "c1", some "/p", some "q", none, none, none, false⟩).state
        = { socket := some true,
            listeners := [(createKey "c1" "/p" "q", [⟨1, false⟩])],
            completedPaths := [createKey "c1" "/p" "q"] })
    ∧ (createKey "c1" "/p" "q"
        ∉ (handleUnsubscribe
            { socket := some true,
              listeners := [(createKey "c1" "/p" "q", [⟨1, false⟩])],
              completedPaths := [createKey "c1" "/p" "q"] }
            (createKey "c1" "/p" "q") ⟨1, false⟩ "u" "/p" "q").1.completedPaths)
    ∧ ((handleUnsubscribe
          { socket := some true,
            listeners := [(createKey "c1" "/p" "q", [⟨1, false⟩, ⟨2, false⟩])],
            completedPaths := [createKey "c1" "/p" "q"] }
          (createKey "c1" "/p" "q") ⟨1, false⟩ "u" "/p" "q").1.completedPaths
        = [createKey "c1" "/p" "q"]) := by
  refine ⟨?_, ?_, ?_, ?_⟩
  · exact C3_completion_gating.1
      { socket := some true, listeners := [], completedPaths := [] }
      ⟨some "c1", some "/p", some "q", some "u", some "COMPLETE", none, false⟩
      (by decide) (by decide) (by decide)
  · exact C3_completion_gating.2.1
      { socket := some true,
        listeners := [(createKey "c1" "/p" "q", [⟨1, false⟩])],
        completedPaths := [createKey "c1" "/p" "q"] }
      ⟨some "c1", some "/p", some "q", none, none, none, false⟩
      (by decide) (by decide)
  · exact (C3_completion_gating.2.2.2
      { socket := some true,
        listeners := [(createKey "c1" "/p" "q", [⟨1, false⟩])],
        completedPaths := [createKey "c1" "/p" "q"] }
      (createKey "c1" "/p" "q") ⟨1, false⟩ "u" "/p" "q"
      [⟨1, false⟩] (by decide)).1 (by decide)
  · exact (C3_completion_gating.2.2.2
      { socket := some true,
        listeners := [(createKey "c1" "/p" "q", [⟨1, false⟩, ⟨2, false⟩])],
        completedPaths := [createKey "c1" "/p" "q"] }
      (createKey "c1" "/p" "q") ⟨1, false⟩ "u" "/p" "q"
      [⟨1, false⟩, ⟨2, false⟩] (by decide)).2 (by decide)

/-! ## Claim C4 -/

theorem subscribe_listeners (st : MuxState) (clusterId path query userId : String)
    (cb : Cb) :
    (subscribe st clusterId path query userId cb).1.listeners
      = setCbs st.listeners (createKey clusterId path query)
          (addCb ((lookupCbs st.listeners (createKey clusterId path query)).getD []) cb) := by
  cases h : lookupCbs st.listeners (createKey clusterId path query) <;> simp [subscribe, h]

/-- The final socket-teardown step of `handleUnsubscribe`: when the
resulting listeners map is empty, the socket reference is cleared. -/
theorem socket_teardown_of_empty (st1 : MuxState) (sent : List WSMessage)
    (hempty : (if st1.listeners.isEmpty && st1.socket.isSome then
                 ({ st1 with socket := none }, sent)
               else (st1, sent)).1.listeners.isEmpty = true) :
    (if st1.listeners.isEmpty && st1.socket.isSome then ({ st1 with socket := none }, sent)
     else (st1, sent)).1.socket = none := by
  by_cases hc : (st1.listeners.isEmpty && st1.socket.isSome) = true
  · simp [hc]
  · rw [if_neg hc] at hempty ⊢
    simp only [hempty, Bool.true_and] at hc
    cases hs2 : st1.socket with
    | none => rfl
    | some b => rw [hs2] at hc; simp at hc

/-- C4: the registry invariant — a key present in the listeners map has
at least one callback — is preserved by subscribe and unsubscribe;
unsubscribing removes the callback, and when it was the last one for the
key, the key is deleted, its completed marker cleared, and a `CLOSE`
frame (with the cluster id recovered from the key) sent when the socket
is open; when the listeners map ends up empty the socket is closed and
cleared; and with two distinct callbacks under one key, one unsubscribe
keeps the socket and a frame for the key still reaches the remaining
callback. -/
theorem C4_subscriber_registry :
    (∀ (st : MuxState) (clusterId path query userId : String) (cb : Cb),
        goodRegistry st →
        goodRegistry (subscribe st clusterId path query userId cb).1)
    ∧ (∀ (st : MuxState) (key : String) (cb : Cb) (userId path query : String),
        goodRegistry st →
        goodRegistry (handleUnsubscribe st key cb userId path query).1)
    ∧ (∀ (st : MuxState) (key : String) (cb : Cb) (userId path query : String)
          (s : List Cb),
        (st.listeners.map Prod.fst).Nodup →
        lookupCbs st.listeners key = some s →
        ((s.filter (fun c => !(c = cb))).isEmpty = true →
          lookupCbs (handleUnsubscribe st key cb userId path query).1.listeners key = none
          ∧ key ∉ (handleUnsubscribe st key cb userId path query).1.completedPaths
          ∧ (socketIsOpen st.socket = true →
              (handleUnsubscribe st key cb userId path query).2
                = [{ clusterId := splitHead key, path := path, query := query,
                     userId := userId, type := "CLOSE" }]))
        ∧ ((s.filter (fun c => !(c = cb))).isEmpty = false →
          lookupCbs (handleUnsubscribe st key cb userId path query).1.listeners key
            = some (s.filter (fun c => !(c = cb)))
          ∧ cb ∉ s.filter (fun c => !(c = cb))))
    ∧ (∀ (st : MuxState) (key : String) (cb : Cb) (userId path query : String),
        (handleUnsubscribe st key cb userId path query).1.listeners.isEmpty = true →
        (handleUnsubscribe st key cb userId path query).1.socket = none)
    ∧ (∀ (st : MuxState) (key : String) (cb1 cb2 : Cb)
          (userId path query : String) (f : Frame),
        lookupCbs st.listeners key = some [cb1, cb2] → cb1 ≠ cb2 →
        truthy f.clusterId = true → truthy f.path = true →
        createKey (f.clusterId.getD "") (f.path.getD "") (f.query.getD "") = key →
        ¬ f.type = some "COMPLETE" →
        key ∉ st.completedPaths →
        (truthy f.data && f.dataMalformed) = false →
        (handleUnsubscribe st key cb1 userId path query).1.socket = st.socket
        ∧ (handleWebSocketMessage
             (handleUnsubscribe st key cb1 userId path query).1 f).invoked
            = [cb2.id]) := by
  refine ⟨?_, ?_, ?_, ?_, ?_⟩
  · intro st clusterId path query userId cb hgood p hp
    rw [subscribe_listeners] at hp
    rcases mem_setCbs hp with h | h
    · exact hgood p h
    · rw [h]
      exact addCb_ne_nil _ _
  · intro st key cb userId path query hgood p hp
    cases h : lookupCbs st.listeners key with
    | none =>
      rw [handleUnsubscribe_unknown st key cb userId path query h] at hp
      split at hp <;> exact hgood p hp
    | some s =>
      by_cases hemp : (s.filter (fun c => !(c = cb))).isEmpty = true
      · rw [handleUnsubscribe_last st key cb userId path query s h hemp] at hp
        split at hp <;> exact hgood p (mem_removeKey hp)
      · have hnemp := Bool.eq_false_iff.mpr hemp
        rw [handleUnsubscribe_keep st key cb userId path query s h hnemp] at hp
        have hfne : s.filter (fun c => !(c = cb)) ≠ [] := by
          intro hnil
          rw [hnil] at hnemp
          exact absurd hnemp (by decide)
        split at hp <;>
          · rcases mem_setCbs hp with h2 | h2
            · exact hgood p h2
            · rw [h2]; exact hfne
  · intro st key cb userId path query s hnd hs
    constructor
    · intro hemp
      rw [handleUnsubscribe_last st key cb userId path query s hs hemp]
      refine ⟨?_, ?_, ?_⟩
      · split <;> exact lookupCbs_removeKey_self st.listeners key hnd
      · split <;> simp [List.mem_filter]
      · intro hso
        split <;> simp [hso]
    · intro hnemp
      rw [handleUnsubscribe_keep st key cb userId path query s hs hnemp]
      constructor
      · split <;> exact lookupCbs_setCbs_self st.listeners key _
      · simp [List.mem_filter]
  · intro st key cb userId path query hempty
    cases h : lookupCbs st.listeners key with
    | none =>
      rw [handleUnsubscribe_unknown st key cb userId path query h] at hempty ⊢
      exact socket_teardown_of_empty st [] hempty
    | some s =>
      by_cases hemp : (s.filter (fun c => !(c = cb))).isEmpty = true
      · rw [handleUnsubscribe_last st key cb userId path query s h hemp] at hempty ⊢
        exact socket_teardown_of_empty
          { st with listeners := removeKey st.listeners key,
                    completedPaths := st.completedPaths.filter (fun k => !(k = key)) }
          (if socketIsOpen st.socket = true then
             [{ clusterId := splitHead key, path := path, query := query,
                userId := userId, type := "CLOSE" }]
           else [])
          hempty
      · have hnemp := Bool.eq_false_iff.mpr hemp
        rw [handleUnsubscribe_keep st key cb userId path query s h hnemp] at hempty ⊢
        exact socket_teardown_of_empty
          { st with listeners := setCbs st.listeners key (s.filter (fun c => !(c = cb))) }
          [] hempty
  · intro st key cb1 cb2 userId path query f hs hne h1 h2 hkey hnc hcomp hdata
    have hfilter : (([cb1, cb2] : List Cb).filter (fun c => !(c = cb1))) = [cb2] := by
      simp [List.filter_cons, hne.symm]
    have hnemp : (([cb1, cb2] : List Cb).filter (fun c => !(c = cb1))).isEmpty = false := by
      rw [hfilter]; rfl
    have hsne : setCbs st.listeners key
        (([cb1, cb2] : List Cb).filter (fun c => !(c = cb1))) ≠ [] :=
      setCbs_ne_nil st.listeners key _ (lookupCbs_ne_nil hs)
    have hsfalse : (setCbs st.listeners key
        (([cb1, cb2] : List Cb).filter (fun c => !(c = cb1)))).isEmpty = false := by
      cases hsc : setCbs st.listeners key
          (([cb1, cb2] : List Cb).filter (fun c => !(c = cb1))) with
      | nil => exact absurd hsc hsne
      | cons a t => rfl
    have hcondne : ¬ ((setCbs st.listeners key
        (([cb1, cb2] : List Cb).filter (fun c => !(c = cb1)))).isEmpty
          && st.socket.isSome) = true := by
      rw [hsfalse]
      simp
    rw [handleUnsubscribe_keep st key cb1 userId path query [cb1, cb2] hs hnemp,
        if_neg hcondne]
    constructor
    · rfl
    · simp [handleWebSocketMessage, h1, h2, hkey, hnc, hcomp, hdata,
        lookupCbs_setCbs_self, runInvoke_singleton, hne.symm]

/-- Witness for C4: spec scenario 2 — two subscribers on one key, one
unsubscribes, a frame still reaches the remaining one; plus a last
unsubscribe that deletes the key and tears the socket down. -/
theorem C4_subscriber_registry_witness :
    goodRegistry (subscribe { socket := none, listeners := [], completedPaths := [] }
        "c1" "/p" "q" "u" ⟨1, false⟩).1
    ∧ goodRegistry (handleUnsubscribe
        { socket := some true, listeners := [(createKey "c1" "/p" "q", [⟨1, false⟩])],
          completedPaths := [] }
        (createKey "c1" "/p" "q") ⟨1, false⟩ "u" "/p" "q").1
    ∧ (lookupCbs (handleUnsubscribe
          { socket := some true, listeners := [(createKey "c1" "/p" "q", [⟨1, false⟩])],
            completedPaths := [] }
          (createKey "c1" "/p" "q") ⟨1, false⟩ "u" "/p" "q").1.listeners
          (createKey "c1" "/p" "q") = none
      ∧ createKey "c1" "/p" "q" ∉ (handleUnsubscribe
          { socket := some true, listeners := [(createKey "c1" "/p" "q", [⟨1, false⟩])],
            completedPaths := [] }
          (createKey "c1" "/p" "q") ⟨1, false⟩ "u" "/p" "q").1.completedPaths
      ∧ (socketIsOpen (some true) = true →
          (handleUnsubscribe
            { socket := some true, listeners := [(createKey "c1" "/p" "q", [⟨1, false⟩])],
              completedPaths := [] }
            (createKey "c1" "/p" "q") ⟨1, false⟩ "u" "/p" "q").2
            = [{ clusterId := splitHead (createKey "c1" "/p" "q"), path := "/p",
                 query := "q", userId := "u", type := "CLOSE" }]))
    ∧ (handleUnsubscribe
        { socket := some true, listeners := [(createKey "c1" "/p" "q", [⟨1, false⟩])],
          completedPaths := [] }
        (createKey "c1" "/p" "q") ⟨1, false⟩ "u" "/p" "q").1.socket = none
    ∧ ((handleUnsubscribe
          { socket := some true,
            listeners := [(createKey "c1" "/p" "q", [⟨1, false⟩, ⟨2, false⟩])],
            completedPaths := [] }
          (createKey "c1" "/p" "q") ⟨1, false⟩ "u" "/p" "q").1.socket
        = ({ socket := some true,
             listeners := [(createKey "c1" "/p" "q", [⟨1, false⟩, ⟨2, false⟩])],
             completedPaths := [] } : MuxState).socket
      ∧ (handleWebSocketMessage
          (handleUnsubscribe
            { socket := some true,
              listeners := [(createKey "c1" "/p" "q", [⟨1, false⟩, ⟨2, false⟩])],
              completedPaths := [] }
            (createKey "c1" "/p" "q") ⟨1, false⟩ "u" "/p" "q").1
          ⟨some "c1", some "/p", some "q", none, none, none, false⟩).invoked = [2]) := by
  refine ⟨?_, ?_, ?_, ?_, ?_⟩
  · exact C4_subscriber_registry.1
      { socket := none, listeners := [], completedPaths := [] }
      "c1" "/p" "q" "u" ⟨1, false⟩ (by decide)
  · exact C4_subscriber_registry.2.1
      { socket := some true, listeners := [(createKey "c1" "/p" "q", [⟨1, false⟩])],
        completedPaths := [] }
      (createKey "c1" "/p" "q") ⟨1, false⟩ "u" "/p" "q" (by decide)
  · exact (C4_subscriber_registry.2.2.1
      { socket := some true, listeners := [(createKey "c1" "/p" "q", [⟨1, false⟩])],
        completedPaths := [] }
      (createKey "c1" "/p" "q") ⟨1, false⟩ "u" "/p" "q" [⟨1, false⟩]
      (by decide) (by decide)).1 (by decide)
  · exact C4_subscriber_registry.2.2.2.1
      { socket := some true, listeners := [(createKey "c1" "/p" "q", [⟨1, false⟩])],
        completedPaths := [] }
      (createKey "c1" "/p" "q") ⟨1, false⟩ "u" "/p" "q" (by decide)
  · exact C4_subscriber_registry.2.2.2.2
      { socket := some true,
        listeners := [(createKey "c1" "/p" "q", [⟨1, false⟩, ⟨2, false⟩])],
        completedPaths := [] }
      (createKey "c1" "/p" "q") ⟨1, false⟩ ⟨2, false⟩ "u" "/p" "q"
      ⟨some "c1", some "/p", some "q", none, none, none, false⟩
      (by decide) (by decide) (by decide) (by decide) (by decide) (by decide)
      (by decide) (by decide)

/-! ## Claim C5 -/

/-- C5 counterexample: two listeners under one key, the first throws.
The outer try/catch wraps the whole `forEach`, so the exception aborts
the iteration: only callback 1 is invoked and callback 2 is skipped —
contradicting the claim that the second callback is still invoked. -/
theorem C5_callback_exception_counterexample :
    (handleWebSocketMessage
        { socket := some true,
          listeners := [(createKey "c1" "/p" "q", [⟨1, true⟩, ⟨2, false⟩])],
          completedPaths := [] }
        ⟨some "c1", some "/p", some "q", none, none, none, false⟩).invoked = [1]
    ∧ 2 ∉ (handleWebSocketMessage
        { socket := some true,
          listeners := [(createKey "c1" "/p" "q", [⟨1, true⟩, ⟨2, false⟩])],
          completedPaths := [] }
        ⟨some "c1", some "/p", some "q", none, none, none, false⟩).invoked := by
  decide

/-- C5 amended: a callback (or nested-payload parse) exception is caught
by the handler — the dispatch returns normally with the manager state
unchanged and nothing sent — but it aborts the delivery loop for that
frame: the callbacks before the first throwing one run, the throwing one
runs, and every callback after it is skipped. -/
theorem C5_callback_exception_aborts_delivery (st : MuxState) (f : Frame)
    (key : String) (pre post : List Cb) (cb : Cb)
    (h1 : truthy f.clusterId = true) (h2 : truthy f.path = true)
    (hkey : createKey (f.clusterId.getD "") (f.path.getD "") (f.query.getD "") = key)
    (hnc : ¬ f.type = some "COMPLETE") (hncomp : key ∉ st.completedPaths)
    (hdata : (truthy f.data && f.dataMalformed) = false)
    (hl : lookupCbs st.listeners key = some (pre ++ cb :: post))
    (hpre : ∀ x ∈ pre, x.throws = false) (hcb : cb.throws = true) :
    (handleWebSocketMessage st f).invoked = pre.map (fun x => x.id) ++ [cb.id]
    ∧ (handleWebSocketMessage st f).state = st
    ∧ (handleWebSocketMessage st f).sent = [] := by
  have hinv : (handleWebSocketMessage st f).invoked = runInvoke (pre ++ cb :: post) := by
    simp [handleWebSocketMessage, h1, h2, hkey, hnc, hncomp, hdata, hl]
  refine ⟨?_, ?_, ?_⟩
  · rw [hinv]
    exact runInvoke_append pre cb post hpre hcb
  · simp [handleWebSocketMessage, h1, h2, hkey, hnc, hncomp, hdata]
  · simp [handleWebSocketMessage, h1, h2, hkey, hnc, hncomp, hdata]

/-- Witness for the amended C5: a non-throwing callback, then a throwing
one, then one that is skipped. -/
theorem C5_callback_exception_aborts_delivery_witness :
    (handleWebSocketMessage
        { socket := some true,
          listeners := [(createKey "c1" "/p" "q", [⟨0, false⟩, ⟨1, true⟩, ⟨2, false⟩])],
          completedPaths := [] }
        ⟨some "c1", some "/p", some "q", none, none, none, false⟩).invoked = [0, 1]
    ∧ (handleWebSocketMessage
        { socket := some true,
          listeners := [(createKey "c1" "/p" "q", [⟨0, false⟩, ⟨1, true⟩, ⟨2, false⟩])],
          completedPaths := [] }
        ⟨some "c1", some "/p", some "q", none, none, none, false⟩).state
      = { socket := some true,
          listeners := [(createKey "c1" "/p" "q", [⟨0, false⟩, ⟨1, true⟩, ⟨2, false⟩])],
          completedPaths := [] }
    ∧ (handleWebSocketMessage
        { socket := some true,
          listeners := [(createKey "c1" "/p" "q", [⟨0, false⟩, ⟨1, true⟩, ⟨2, false⟩])],
          completedPaths := [] }
        ⟨some "c1", some "/p", some "q", none, none, none, false⟩).sent = [] :=
  C5_callback_exception_aborts_delivery
    { socket := some true,
      listeners := [(createKey "c1" "/p" "q", [⟨0, false⟩, ⟨1, true⟩, ⟨2, false⟩])],
      completedPaths := [] }
    ⟨some "c1", some "/p", some "q", none, none, none, false⟩
    (createKey "c1" "/p" "q") [⟨0, false⟩] [⟨2, false⟩] ⟨1, true⟩
    (by decide) (by decide) (by decide) (by decide) (by decide) (by decide)
    (by decide) (by decide) (by decide)

/-! ## Claim C6 -/

/-- C6: while not cancelled, a 404 from the active candidate with a
further candidate remaining cancels the active stream and then starts
exactly one fresh stream against the next candidate in order (so streams
of two candidates are never active at once); any other error — in
particular a 404 with candidates exhausted — propagates to the caller's
error callback without switching; after cancellation nothing happens. -/
theorem C6_failover_router (n : Nat) :
    (∀ (st : RouterState) (a : Nat),
        st.isCancelled = false → st.endpointIndex < n → st.active = some a →
        routerOnError n st 404 true
          = ({ st with endpointIndex := st.endpointIndex + 1,
                       active := some st.endpointIndex },
             [RAction.cancelStream a, RAction.startStream st.endpointIndex]))
    ∧ (∀ (st : RouterState) (status : Nat) (hc : Bool),
        st.isCancelled = false → ¬ (status = 404 ∧ st.endpointIndex < n) →
        routerOnError n st status hc = (st, [RAction.propagate]))
    ∧ (∀ (st : RouterState) (status : Nat) (hc : Bool),
        st.isCancelled = true → routerOnError n st status hc = (st, [])) := by
  refine ⟨?_, ?_, ?_⟩
  · intro st a hcanc hlt hact
    unfold routerOnError
    rw [if_neg (by simp [hcanc]), if_pos (by simp [hlt]), hact]
    rfl
  · intro st status hc hcanc hnot
    unfold routerOnError
    rw [if_neg (by simp [hcanc]), if_neg (by simpa using hnot)]
  · intro st status hc hcanc
    unfold routerOnError
    rw [if_pos hcanc]

/-- Witness for C6 with candidates `[A, B]` (`n = 2`): the first 404
switches from candidate 0 to candidate 1 exactly once, the second 404
propagates. -/
theorem C6_failover_router_witness :
    routerOnError 2 { isCancelled := false, endpointIndex := 1, active := some 0 } 404 true
      = ({ isCancelled := false, endpointIndex := 2, active := some 1 },
         [RAction.cancelStream 0, RAction.startStream 1])
    ∧ routerOnError 2 { isCancelled := false, endpointIndex := 2, active := some 1 } 404 true
      = ({ isCancelled := false, endpointIndex := 2, active := some 1 },
         [RAction.propagate])
    ∧ routerOnError 2 { isCancelled := true, endpointIndex := 2, active := some 1 } 404 true
      = ({ isCancelled := true, endpointIndex := 2, active := some 1 }, []) :=
  ⟨(C6_failover_router 2).1
     { isCancelled := false, endpointIndex := 1, active := some 0 } 0
     (by decide) (by decide) (by decide),
   (C6_failover_router 2).2.1
     { isCancelled := false, endpointIndex := 2, active := some 1 } 404 true
     (by decide) (by decide),
   (C6_failover_router 2).2.2
     { isCancelled := true, endpointIndex := 2, active := some 1 } 404 true
     (by decide)⟩

/-! ## Claim C8 -/

theorem sep_cons_inj {α : Type} (sep : α) :
    ∀ (l1 l2 r1 r2 : List α), sep ∉ l1 → sep ∉ l2 →
      l1 ++ sep :: r1 = l2 ++ sep :: r2 → l1 = l2 ∧ r1 = r2 := by
  intro l1
  induction l1 with
  | nil =>
    intro l2 r1 r2 _ h2 h
    cases l2 with
    | nil => simpa using h
    | cons x xs =>
      simp only [List.nil_append, List.cons_append] at h
      have hx : sep = x := (List.cons.inj h).1
      apply absurd _ h2
      rw [hx]
      exact List.mem_cons_self x xs
  | cons y ys ih =>
    intro l2 r1 r2 h1 h2 h
    cases l2 with
    | nil =>
      simp only [List.nil_append, List.cons_append] at h
      have hy : y = sep := (List.cons.inj h).1
      apply absurd _ h1
      rw [hy.symm]
      exact List.mem_cons_self y ys
    | cons x xs =>
      simp only [List.cons_append] at h
      obtain ⟨hyx, hrest⟩ := List.cons.inj h
      obtain ⟨ha, hb⟩ := ih xs r1 r2
        (fun hm => h1 (List.mem_cons_of_mem y hm))
        (fun hm => h2 (List.mem_cons_of_mem x hm)) hrest
      refine ⟨?_, hb⟩
      rw [hyx, ha]

theorem createKey_data (c p q : String) :
    (createKey c p q).data = c.data ++ ':' :: (p.data ++ ':' :: q.data) := by
  have hcolon : (":" : String).data = [':'] := rfl
  simp [createKey, String.data_append, hcolon]

theorem takeWhile_append_colon (l : List Char) (r : List Char) (h : ':' ∉ l) :
    (l ++ ':' :: r).takeWhile (fun ch => !(ch == ':')) = l := by
  induction l with
  | nil => simp [List.takeWhile_cons]
  | cons x xs ih =>
    rw [List.mem_cons, not_or] at h
    have hx : ¬ x = ':' := fun he => h.1 he.symm
    simp only [List.cons_append, List.takeWhile_cons]
    simp [hx, ih h.2]

theorem createKey_inj_aux (c1 p1 q1 c2 p2 q2 : String)
    (hc1 : ':' ∉ c1.data) (hp1 : ':' ∉ p1.data)
    (hc2 : ':' ∉ c2.data) (hp2 : ':' ∉ p2.data)
    (h : createKey c1 p1 q1 = createKey c2 p2 q2) :
    c1 = c2 ∧ p1 = p2 ∧ q1 = q2 := by
  have hd : c1.data ++ ':' :: (p1.data ++ ':' :: q1.data)
      = c2.data ++ ':' :: (p2.data ++ ':' :: q2.data) := by
    rw [← createKey_data, ← createKey_data, h]
  obtain ⟨hc, hrest⟩ := sep_cons_inj ':' c1.data c2.data _ _ hc1 hc2 hd
  obtain ⟨hp, hq⟩ := sep_cons_inj ':' p1.data p2.data _ _ hp1 hp2 hrest
  exact ⟨String.ext hc, String.ext hp, String.ext hq⟩

theorem splitHead_createKey_aux (c p q : String) (hc : ':' ∉ c.data) :
    splitHead (createKey c p q) = c := by
  apply String.ext
  show ((createKey c p q).data.takeWhile (fun ch => !(ch == ':'))) = c.data
  rw [createKey_data]
  exact takeWhile_append_colon c.data _ hc

/-- C8 counterexample: `createKey` just joins the three components with
`:` and no escaping, so two distinct tuples collide as soon as a colon
moves across a boundary, and the cluster id recovered by
`key.split(':')[0]` in `handleUnsubscribe` is then wrong as well. -/
theorem C8_createKey_injective_counterexample :
    createKey "a:b" "c" "d" = createKey "a" "b:c" "d"
    ∧ ("a:b", "c", "d") ≠ (("a", "b:c", "d") : String × String × String)
    ∧ splitHead (createKey "a:b" "c" "d") ≠ "a:b" := by
  refine ⟨by decide, by decide, by decide⟩

/-- C8 amended: `createKey` is injective on tuples whose cluster id and
path contain no colon (queries may), and under the same restriction on
the cluster id, the cluster id recovered from the key during unsubscribe
equals the one the key was created from. -/
theorem C8_createKey_injective_colon_free :
    (∀ c1 p1 q1 c2 p2 q2 : String,
        ':' ∉ c1.data → ':' ∉ p1.data → ':' ∉ c2.data → ':' ∉ p2.data →
        createKey c1 p1 q1 = createKey c2 p2 q2 →
        c1 = c2 ∧ p1 = p2 ∧ q1 = q2)
    ∧ (∀ c p q : String, ':' ∉ c.data → splitHead (createKey c p q) = c) :=
  ⟨fun c1 p1 q1 c2 p2 q2 hc1 hp1 hc2 hp2 h =>
     createKey_inj_aux c1 p1 q1 c2 p2 q2 hc1 hp1 hc2 hp2 h,
   fun c p q hc => splitHead_createKey_aux c p q hc⟩

/-- Witness for the amended C8 on a concrete colon-free key. -/
theorem C8_createKey_injective_colon_free_witness :
    (("c1" : String) = "c1" ∧ ("/p" : String) = "/p" ∧ ("q?x=1" : String) = "q?x=1")
    ∧ splitHead (createKey "c1" "/p" "q?x=1") = "c1" :=
  ⟨C8_createKey_injective_colon_free.1 "c1" "/p" "q?x=1" "c1" "/p" "q?x=1"
     (by decide) (by decide) (by decide) (by decide) rfl,
   C8_createKey_injective_colon_free.2 "c1" "/p" "q?x=1" (by decide)⟩

end Headlamp











